import Mathlib

/-!
Verification of the Voice app frontend (React/Tauri voice-to-text overlay and
settings panel) against its specification.

The embedding below follows the TypeScript sources:
- `App.tsx`: routing between the Settings and Overlay surfaces;
- `Settings.tsx`: device selection (`handleDeviceChange`), model selection
  (`handleModelSelect`), and the download progress bar computation;
- `Overlay.tsx`: the event-driven overlay state machine (`overlayStep`), the
  startup model-readiness check, the download percentage display, and the
  `getBarStyle` equalizer computation of `StateVisualizer`.

The backend Session Controller (hotkey handling, minimum-duration guard,
automatic reset) is not part of the inspected sources; it is modelled from the
spec where a claim is about it (`sessionStep`).
-/

/-- The five UI states of `Overlay.tsx` (`type RecordingState = ...`), shared
with the spec's Session Controller state machine. -/
inductive RecordingState
  | idle
  | recording
  | processing
  | done
  | error
deriving DecidableEq

/-- Tauri commands invoked by the frontend (the subset the claims mention). -/
inductive Cmd
  | is_model_ready
  | download_whisper_model
  | download_model_size (size : String)
  | set_model_size (size : String)
  | set_audio_device (deviceName : Option String)
deriving DecidableEq

/- ### Overlay.tsx -/

/-- The React state of the `Overlay` component: `state`, `modelReady`,
`audioLevel`, `downloadProgress`. -/
structure OverlayState where
  state : RecordingState
  modelReady : Bool
  audioLevel : ℚ
  downloadProgress : Option (ℕ × ℕ)
deriving DecidableEq

/-- The Tauri events the `Overlay` component subscribes to. -/
inductive OverlayEvent
  | downloadProgressEv (downloaded total : ℕ)
  | recordingStarted
  | audioLevelEv (level : ℚ)
  | recordingStopped
  | transcriptionStarted
  | transcriptionComplete (text : String)
  | transcriptionErrorEv (reason : String)

/-- The event listeners registered in `Overlay.tsx`, one React state update per
event.  The `download-progress` listener sets `downloadProgress` and, when
`downloaded >= total`, sets `modelReady` and clears `downloadProgress`; the
session events each set `state` to a fixed successor; `audio-level` only
updates the level. -/
def overlayStep (s : OverlayState) (e : OverlayEvent) : OverlayState :=
  match e with
  | .downloadProgressEv downloaded total =>
      if downloaded ≥ total then
        { s with modelReady := true, downloadProgress := none }
      else
        { s with downloadProgress := some (downloaded, total) }
  | .recordingStarted => { s with state := .recording, audioLevel := 0 }
  | .audioLevelEv level => { s with audioLevel := level }
  | .recordingStopped => { s with state := .processing, audioLevel := 0 }
  | .transcriptionStarted => { s with state := .processing }
  | .transcriptionComplete _ => { s with state := .done }
  | .transcriptionErrorEv _ => { s with state := .error }

/-- Folding the overlay listeners over a sequence of received events. -/
def runOverlay (s : OverlayState) (es : List OverlayEvent) : OverlayState :=
  es.foldl overlayStep s

/-- The mount effect of `Overlay.tsx`: it invokes `is_model_ready`, stores the
answer in `modelReady`, and invokes `download_whisper_model` exactly when the
answer was false.  Returns the resulting `modelReady` flag and the list of
commands invoked, in order. -/
def overlayStartup (ready : Bool) : Bool × List Cmd :=
  (ready, Cmd.is_model_ready :: (if ready then [] else [Cmd.download_whisper_model]))

/-- JavaScript number results of the percentage computations: a finite value,
`NaN`, or a signed infinity (division by zero does not throw in JS). -/
inductive JSNum
  | nan
  | inf
  | ninf
  | fin (q : ℚ)
deriving DecidableEq

/-- `Math.round((downloaded / total) * 100)` under JavaScript number
semantics: when `total = 0` the division yields `NaN` (for `0/0`) or a signed
infinity, which `* 100` and `Math.round` preserve; otherwise `Math.round`
rounds half away from minus infinity, which is `round` on `ℚ`. -/
def jsRoundPercent (downloaded total : ℚ) : JSNum :=
  if total = 0 then
    if downloaded = 0 then .nan
    else if 0 < downloaded then .inf
    else .ninf
  else .fin (round (downloaded / total * 100))

/-- The download percent displayed by `Overlay.tsx`:
`downloadProgress.total ? Math.round((downloaded / total) * 100) : 0`.
The truthiness guard on `total` makes the computation total. -/
def overlayPercent (downloaded total : ℚ) : JSNum :=
  if total = 0 then .fin 0 else jsRoundPercent downloaded total

/- ### Settings.tsx -/

/-- `get_available_models` rows as consumed by `Settings.tsx`:
`(id, displayLabel, isDownloaded)`. -/
abbrev ModelInfo := String × String × Bool

/-- The React state of the `Settings` component that the claims mention. -/
structure SettingsState where
  currentDevice : Option String
  selectedModel : String
  downloading : Option String
deriving DecidableEq

/-- `handleDeviceChange` in `Settings.tsx`: maps the select element's value
to `null` when it is `"default"` (the value of the "System Default" option)
and to the device name otherwise, invokes `set_audio_device` with that value,
and records it in `currentDevice`. -/
def handleDeviceChange (st : SettingsState) (deviceName : String) :
    SettingsState × List Cmd :=
  let device : Option String := if deviceName = "default" then none else some deviceName
  ({ st with currentDevice := device }, [Cmd.set_audio_device device])

/-- `handleModelSelect` in `Settings.tsx`: looks the clicked size up in the
fetched model list; if absent, does nothing; if present and downloaded,
invokes `set_model_size` and records the selection; if present and not
downloaded, marks the row as downloading, invokes `download_model_size`, and
records the selection. -/
def handleModelSelect (models : List ModelInfo) (st : SettingsState)
    (size : String) : SettingsState × List Cmd :=
  match models.find? (fun m => m.1 == size) with
  | none => (st, [])
  | some m =>
      if m.2.2 then
        ({ st with selectedModel := size }, [Cmd.set_model_size size])
      else
        ({ st with selectedModel := size, downloading := some size },
         [Cmd.download_model_size size])

/-- The per-model progress bar width computed in `Settings.tsx`:
`downloadProgress?.size === size ? Math.round((downloaded / total) * 100) : 0`.
Unlike the overlay's computation, there is no guard on `total`. -/
def settingsProgress (dp : Option (String × ℚ × ℚ)) (size : String) : JSNum :=
  match dp with
  | some (s, downloaded, total) =>
      if s = size then jsRoundPercent downloaded total else .fin 0
  | none => .fin 0

/- ### StateVisualizer (Overlay.tsx) -/

/-- The inline style computed per equalizer bar. -/
structure BarStyle where
  height : ℝ
  opacity : ℝ

/-- `getBarStyle` in `StateVisualizer`: in `recording`, a sine/cosine wave
modulated by the audio level, with the height clamped by
`Math.max(8, Math.min(36, height))` and opacity `0.85`; in `processing`, a
pulse in `[0,1]` giving height `6 + pulse * 4` and opacity
`0.5 + pulse * 0.3`; otherwise height and opacity `0`. -/
noncomputable def getBarStyle (state : RecordingState) (level : ℝ)
    (tick : ℕ) (index : ℕ) : BarStyle :=
  match state with
  | .recording =>
      let wave := Real.sin ((tick : ℝ) / 8 + (index : ℝ) * 0.7) * 0.4
                + Real.cos ((tick : ℝ) / 12 + (index : ℝ) * 1.1) * 0.3
      let baseHeight := 0.3 + wave * 0.5
      let height := 8 + (level * (baseHeight + 0.5) * 28)
      { height := max 8 (min 36 height), opacity := 0.85 }
  | .processing =>
      let pulse := Real.sin ((tick : ℝ) / 15 + (index : ℝ) * 0.3) * 0.5 + 0.5
      { height := 6 + pulse * 4, opacity := 0.5 + pulse * 0.3 }
  | _ => { height := 0, opacity := 0 }

/- ### App.tsx -/

/-- The two surfaces the app root can render. -/
inductive Surface
  | settingsSurface
  | overlaySurface
deriving DecidableEq

/-- `App` in `App.tsx`: renders `Settings` exactly when
`window.location.pathname === "/settings"` and `Overlay` otherwise. -/
def App (pathname : String) : Surface :=
  if pathname = "/settings" then .settingsSurface else .overlaySurface

/- ### Session Controller (spec-modelled) -/

/-- Events driving the spec's Session Controller.  A hotkey release carries
the duration of the captured buffer in milliseconds. -/
inductive SessionEvent
  | hotkeyPress
  | hotkeyRelease (bufferMs : ℕ)
  | transcriptionSuccess
  | transcriptionFailure
  | timeout

/-- Events emitted by the spec's Session Controller towards the presentation
layer. -/
inductive SessionEmit
  | recordingStartedEm
  | recordingStoppedEm
  | transcriptionStartedEm
  | transcriptionCompleteEm
  | transcriptionErrorEm
deriving DecidableEq

/-- Environment guards of the Session Controller: whether a model is
downloaded and selected, and whether capture can start on the device. -/
structure SessionCtx where
  hasActiveModel : Bool
  deviceAvailable : Bool

/-- Modelled from the spec: the minimum buffer duration threshold of §4.1
("e.g. <300ms"); a release below it is treated as an accidental tap. -/
def minBufferMs : ℕ := 300

/-- Modelled from the spec: the backend Session Controller state machine of
§4.1 is not under the inspected sources (only the presentation overlay that
subscribes to its events is).  States `idle → recording → processing →
{done | error} → idle`; press from `idle` is guarded by `NoActiveModel` and
`DeviceUnavailable`; release with a buffer below `minBufferMs` goes directly
to `idle` with no transcription attempt; `done`/`error` reset to `idle` on
timeout, or immediately start a new recording on the next hotkey press;
presses while `recording` or `processing` are ignored. -/
def sessionStep (ctx : SessionCtx) (s : RecordingState) (e : SessionEvent) :
    RecordingState × List SessionEmit :=
  match s, e with
  | .idle, .hotkeyPress =>
      if ctx.hasActiveModel && ctx.deviceAvailable then
        (.recording, [.recordingStartedEm])
      else
        (.idle, [.transcriptionErrorEm])
  | .recording, .hotkeyRelease bufferMs =>
      if bufferMs < minBufferMs then
        (.idle, [.recordingStoppedEm])
      else
        (.processing, [.recordingStoppedEm, .transcriptionStartedEm])
  | .recording, .hotkeyPress => (.recording, [])
  | .processing, .hotkeyPress => (.processing, [])
  | .processing, .transcriptionSuccess => (.done, [.transcriptionCompleteEm])
  | .processing, .transcriptionFailure => (.error, [.transcriptionErrorEm])
  | .done, .timeout => (.idle, [])
  | .error, .timeout => (.idle, [])
  | .done, .hotkeyPress =>
      if ctx.hasActiveModel && ctx.deviceAvailable then
        (.recording, [.recordingStartedEm])
      else
        (.idle, [.transcriptionErrorEm])
  | .error, .hotkeyPress =>
      if ctx.hasActiveModel && ctx.deviceAvailable then
        (.recording, [.recordingStartedEm])
      else
        (.idle, [.transcriptionErrorEm])
  | _, _ => (s, [])

/- ### Theorems -/

/-- Claim C1, counterexample: clicking the undownloaded model "small" in the
settings panel does not fail with `ModelNotDownloaded`; it invokes
`download_model_size` (starting a download) and records the selection, so the
claim that selection "always fails ... and never silently downloads" is false
on `handleModelSelect`. -/
theorem C1_counterexample :
    Cmd.download_model_size "small" ∈
      (handleModelSelect [("small", "Small (Fast)", false)]
        ⟨none, "small", none⟩ "small").2 ∧
    (handleModelSelect [("small", "Small (Fast)", false)]
        ⟨none, "small", none⟩ "small").1.selectedModel = "small" := by
  constructor
  · simp [handleModelSelect]
  · simp [handleModelSelect]

/-- Claim C1 as amended: for a model present in the list with
`isDownloaded = false`, `handleModelSelect` never invokes `set_model_size`;
instead it invokes exactly `download_model_size` for that model, marks it as
downloading, and records it as the selection. -/
theorem C1_undownloaded_never_set_model (models : List ModelInfo)
    (st : SettingsState) (size : String) (m : ModelInfo)
    (hfind : models.find? (fun r => r.1 == size) = some m)
    (hdl : m.2.2 = false) :
    (handleModelSelect models st size).2 = [Cmd.download_model_size size] ∧
    (∀ s, Cmd.set_model_size s ∉ (handleModelSelect models st size).2) ∧
    (handleModelSelect models st size).1.downloading = some size ∧
    (handleModelSelect models st size).1.selectedModel = size := by
  simp [handleModelSelect, hfind, hdl]

/-- Witness for C1's amended theorem at the concrete undownloaded model
"small". -/
theorem C1_undownloaded_never_set_model_witness :
    (handleModelSelect [("small", "Small (Fast)", false)]
        ⟨none, "medium", none⟩ "small").2 = [Cmd.download_model_size "small"] ∧
    (∀ s, Cmd.set_model_size s ∉
      (handleModelSelect [("small", "Small (Fast)", false)]
        ⟨none, "medium", none⟩ "small").2) ∧
    (handleModelSelect [("small", "Small (Fast)", false)]
        ⟨none, "medium", none⟩ "small").1.downloading = some "small" ∧
    (handleModelSelect [("small", "Small (Fast)", false)]
        ⟨none, "medium", none⟩ "small").1.selectedModel = "small" :=
  C1_undownloaded_never_set_model _ _ _ ("small", "Small (Fast)", false)
    (by decide) rfl

/-- Claim C2: in the spec-modelled Session Controller, releasing the hotkey
with a buffer shorter than the minimum duration threshold sends the session
directly to `idle`, never to `processing`, and emits no
`transcription-started` event. -/
theorem C2_short_tap (ctx : SessionCtx) (bufferMs : ℕ)
    (h : bufferMs < minBufferMs) :
    (sessionStep ctx .recording (.hotkeyRelease bufferMs)).1 = .idle ∧
    (sessionStep ctx .recording (.hotkeyRelease bufferMs)).1 ≠ .processing ∧
    SessionEmit.transcriptionStartedEm ∉
      (sessionStep ctx .recording (.hotkeyRelease bufferMs)).2 := by
  simp [sessionStep, h]

/-- Witness for C2 at the spec's concrete 100 ms tap. -/
theorem C2_short_tap_witness :
    100 < minBufferMs ∧
    ((sessionStep ⟨true, true⟩ .recording (.hotkeyRelease 100)).1 = .idle ∧
     (sessionStep ⟨true, true⟩ .recording (.hotkeyRelease 100)).1 ≠ .processing ∧
     SessionEmit.transcriptionStartedEm ∉
       (sessionStep ⟨true, true⟩ .recording (.hotkeyRelease 100)).2) :=
  ⟨by decide, C2_short_tap ⟨true, true⟩ 100 (by decide)⟩

/-- Claim C3: in the spec-modelled Session Controller, a timeout maps `done`
and `error` back to `idle`, and the next hotkey press leaves `done`/`error`
immediately (starting a new recording when the guards allow it); no further
event is required. -/
theorem C3_terminal_reset (ctx : SessionCtx) :
    (sessionStep ctx .done .timeout).1 = .idle ∧
    (sessionStep ctx .error .timeout).1 = .idle ∧
    (sessionStep ctx .done .hotkeyPress).1 ≠ .done ∧
    (sessionStep ctx .error .hotkeyPress).1 ≠ .error := by
  by_cases h : ctx.hasActiveModel && ctx.deviceAvailable <;>
    simp [sessionStep, h]

/-- Claim C6: on startup the overlay queries `is_model_ready`, and it invokes
`download_whisper_model` exactly when the query returned false. -/
theorem C6_startup_download (ready : Bool) :
    Cmd.is_model_ready ∈ (overlayStartup ready).2 ∧
    (Cmd.download_whisper_model ∈ (overlayStartup ready).2 ↔ ready = false) := by
  cases ready <;> simp [overlayStartup]

/-- Claim C7: committing a device choice invokes `set_audio_device` with
`null` when the "System Default" option (value `"default"`) is chosen and
with exactly the chosen device name otherwise, and the recorded
`currentDevice` equals the committed value. -/
theorem C7_device_commit (st : SettingsState) (deviceName : String) :
    (deviceName = "default" →
      (handleDeviceChange st deviceName).2 = [Cmd.set_audio_device none] ∧
      (handleDeviceChange st deviceName).1.currentDevice = none) ∧
    (deviceName ≠ "default" →
      (handleDeviceChange st deviceName).2 =
        [Cmd.set_audio_device (some deviceName)] ∧
      (handleDeviceChange st deviceName).1.currentDevice = some deviceName) := by
  constructor
  · intro h; simp [handleDeviceChange, h]
  · intro h; simp [handleDeviceChange, h]

/-- Witness for C7 at the "System Default" choice and at a concrete device
name. -/
theorem C7_device_commit_witness :
    ((handleDeviceChange ⟨none, "small", none⟩ "default").2 =
        [Cmd.set_audio_device none] ∧
     (handleDeviceChange ⟨none, "small", none⟩ "default").1.currentDevice = none) ∧
    ((handleDeviceChange ⟨none, "small", none⟩ "MacBook Pro Microphone").2 =
        [Cmd.set_audio_device (some "MacBook Pro Microphone")] ∧
     (handleDeviceChange ⟨none, "small", none⟩
        "MacBook Pro Microphone").1.currentDevice =
        some "MacBook Pro Microphone") :=
  ⟨(C7_device_commit ⟨none, "small", none⟩ "default").1 rfl,
   (C7_device_commit ⟨none, "small", none⟩ "MacBook Pro Microphone").2
     (by decide)⟩

/-- Claim C10: the app root renders the Settings surface exactly when the
pathname is "/settings" and the Overlay surface in every other case; the two
surfaces are distinct, so no input renders both or neither. -/
theorem C10_routing (pathname : String) :
    (App pathname = .settingsSurface ↔ pathname = "/settings") ∧
    (App pathname = .overlaySurface ↔ pathname ≠ "/settings") ∧
    Surface.settingsSurface ≠ Surface.overlaySurface := by
  by_cases h : pathname = "/settings" <;> simp [App, h]

/-- Helper: the `download-progress` listener sets `modelReady` exactly when
`downloaded >= total`, and leaves it unchanged otherwise. -/
theorem overlayStep_download_modelReady (s : OverlayState) (d t : ℕ) :
    (overlayStep s (.downloadProgressEv d t)).modelReady =
      if d ≥ t then true else s.modelReady := by
  by_cases h : d ≥ t <;> simp [overlayStep, h]

/-- Claim C4: starting from an overlay state with `modelReady = false`, every
progress event with `downloaded < total` leaves the model-ready flag false,
and the terminal event with `downloaded = total` sets it to true. -/
theorem C4_ready_only_at_terminal (events : List (ℕ × ℕ)) (s : OverlayState)
    (h0 : s.modelReady = false)
    (hlt : ∀ e ∈ events, e.1 < e.2) :
    (runOverlay s (events.map fun e => .downloadProgressEv e.1 e.2)).modelReady
      = false ∧
    ∀ total : ℕ,
      (overlayStep
        (runOverlay s (events.map fun e => .downloadProgressEv e.1 e.2))
        (.downloadProgressEv total total)).modelReady = true := by
  constructor
  · induction events generalizing s with
    | nil => simpa [runOverlay] using h0
    | cons e es ih =>
        have hstep : (overlayStep s (.downloadProgressEv e.1 e.2)).modelReady
            = false := by
          rw [overlayStep_download_modelReady]
          have : ¬ e.1 ≥ e.2 := Nat.not_le.mpr (hlt e (by simp))
          simp [this, h0]
        have htail : ∀ x ∈ es, x.1 < x.2 := fun x hx => hlt x (by simp [hx])
        simpa [runOverlay] using
          ih (overlayStep s (.downloadProgressEv e.1 e.2)) hstep htail
  · intro total
    simp [overlayStep]

/-- Witness for C4 at the spec's scenario: progress `[0/500, 250/500]` keeps
the flag false, and the terminal `500/500` event sets it. -/
theorem C4_ready_only_at_terminal_witness :
    (OverlayState.mk .idle false 0 none).modelReady = false ∧
    (∀ e ∈ [((0 : ℕ), (500 : ℕ)), (250, 500)], e.1 < e.2) ∧
    ((runOverlay (OverlayState.mk .idle false 0 none)
        ([((0 : ℕ), (500 : ℕ)), (250, 500)].map
          fun e => .downloadProgressEv e.1 e.2)).modelReady = false ∧
     ∀ total : ℕ,
       (overlayStep
         (runOverlay (OverlayState.mk .idle false 0 none)
           ([((0 : ℕ), (500 : ℕ)), (250, 500)].map
             fun e => .downloadProgressEv e.1 e.2))
         (.downloadProgressEv total total)).modelReady = true) :=
  ⟨rfl, by decide,
   C4_ready_only_at_terminal [(0, 500), (250, 500)]
     (OverlayState.mk .idle false 0 none) rfl (by decide)⟩

/-- Helper: folding the overlay listeners over a prefix and a suffix. -/
theorem runOverlay_append (s : OverlayState) (l₁ l₂ : List OverlayEvent) :
    runOverlay s (l₁ ++ l₂) = runOverlay (runOverlay s l₁) l₂ := by
  simp [runOverlay]

/-- Helper: `audio-level` events never change the overlay's session state. -/
theorem runOverlay_replicate_audioLevel (n : ℕ) (x : ℚ) (s : OverlayState) :
    (runOverlay s (List.replicate n (.audioLevelEv x))).state = s.state := by
  induction n generalizing s with
  | zero => rfl
  | succ n ih =>
      rw [List.replicate_succ]
      exact (ih (overlayStep s (.audioLevelEv x))).trans rfl

/-- Claim C5: the event sequence `recording-started`, any number of
`audio-level` events, `recording-stopped`, `transcription-started`,
`transcription-complete` (resp. `transcription-error`) drives the overlay
through `recording` and `processing` and ends in `done` (resp. `error`); and
each named event maps any state to exactly its named successor. -/
theorem C5_event_sequence (s : OverlayState) (n : ℕ) (x : ℚ)
    (txt reason : String) :
    (runOverlay s
      (.recordingStarted :: List.replicate n (.audioLevelEv x))).state
      = .recording ∧
    (runOverlay s
      ((.recordingStarted :: List.replicate n (.audioLevelEv x)) ++
        [.recordingStopped])).state = .processing ∧
    (runOverlay s
      ((.recordingStarted :: List.replicate n (.audioLevelEv x)) ++
        [.recordingStopped, .transcriptionStarted])).state = .processing ∧
    (runOverlay s
      ((.recordingStarted :: List.replicate n (.audioLevelEv x)) ++
        [.recordingStopped, .transcriptionStarted,
         .transcriptionComplete txt])).state = .done ∧
    (runOverlay s
      ((.recordingStarted :: List.replicate n (.audioLevelEv x)) ++
        [.recordingStopped, .transcriptionStarted,
         .transcriptionErrorEv reason])).state = .error ∧
    (∀ u : OverlayState,
      (overlayStep u .recordingStarted).state = .recording ∧
      (overlayStep u (.audioLevelEv x)).state = u.state ∧
      (overlayStep u .recordingStopped).state = .processing ∧
      (overlayStep u .transcriptionStarted).state = .processing ∧
      (overlayStep u (.transcriptionComplete txt)).state = .done ∧
      (overlayStep u (.transcriptionErrorEv reason)).state = .error) := by
  have h1 : (runOverlay s
      (.recordingStarted :: List.replicate n (.audioLevelEv x))).state
      = .recording :=
    (runOverlay_replicate_audioLevel n x
      (overlayStep s .recordingStarted)).trans rfl
  refine ⟨h1, ?_, ?_, ?_, ?_, fun u => ⟨rfl, rfl, rfl, rfl, rfl, rfl⟩⟩
  · rw [runOverlay_append]; rfl
  · rw [runOverlay_append]; rfl
  · rw [runOverlay_append]; rfl
  · rw [runOverlay_append]; rfl

/-- Claim C8: for every audio level (any real number), animation tick and bar
index, the equalizer bar computed in the `recording` state has height in
`[8, 36]` and opacity `0.85`, and in the `processing` state height in
`[6, 10]` and opacity in `[0.5, 0.8]`. -/
theorem C8_bar_bounds (level : ℝ) (tick index : ℕ) :
    8 ≤ (getBarStyle .recording level tick index).height ∧
    (getBarStyle .recording level tick index).height ≤ 36 ∧
    (getBarStyle .recording level tick index).opacity = 0.85 ∧
    6 ≤ (getBarStyle .processing level tick index).height ∧
    (getBarStyle .processing level tick index).height ≤ 10 ∧
    (0.5 : ℝ) ≤ (getBarStyle .processing level tick index).opacity ∧
    (getBarStyle .processing level tick index).opacity ≤ 0.8 := by
  have hpulse : ∀ a : ℝ, -1 ≤ a → a ≤ 1 →
      6 ≤ 6 + (a * 0.5 + 0.5) * 4 ∧ 6 + (a * 0.5 + 0.5) * 4 ≤ 10 ∧
      (0.5 : ℝ) ≤ 0.5 + (a * 0.5 + 0.5) * 0.3 ∧
      0.5 + (a * 0.5 + 0.5) * 0.3 ≤ 0.8 := by
    intro a ha1 ha2
    exact ⟨by nlinarith, by nlinarith, by nlinarith, by nlinarith⟩
  have h := hpulse (Real.sin ((tick : ℝ) / 15 + (index : ℝ) * 0.3))
    (Real.neg_one_le_sin _) (Real.sin_le_one _)
  exact ⟨le_max_left _ _, max_le (by norm_num) (min_le_left _ _), rfl,
    h.1, h.2.1, h.2.2.1, h.2.2.2⟩

/-- Claim C9, counterexample: the Settings progress computation is not total;
at a matching progress record with `downloaded = 0` and `total = 0` it yields
`NaN`, not the percent `0`. -/
theorem C9_counterexample :
    settingsProgress (some ("small", 0, 0)) "small" = JSNum.nan ∧
    JSNum.nan ≠ JSNum.fin 0 := by
  refine ⟨by simp [settingsProgress, jsRoundPercent], by simp⟩

/-- Claim C9 as amended: the Overlay's percent computation is total — `0`
when the reported total is `0` and `round(downloaded / total * 100)`
otherwise — while the Settings computation equals the rounded percent only
when `total ≠ 0`: it yields `NaN` at `downloaded = total = 0` and a signed
infinity for nonzero `downloaded` with `total = 0`. -/
theorem C9_percent (downloaded total : ℚ) :
    (total = 0 → overlayPercent downloaded total = .fin 0) ∧
    (total ≠ 0 →
      overlayPercent downloaded total =
        .fin (round (downloaded / total * 100)) ∧
      ∀ s, settingsProgress (some (s, downloaded, total)) s =
        .fin (round (downloaded / total * 100))) ∧
    (total = 0 → downloaded = 0 →
      ∀ s, settingsProgress (some (s, downloaded, total)) s = .nan) ∧
    (total = 0 → downloaded ≠ 0 →
      ∀ s, settingsProgress (some (s, downloaded, total)) s =
        (if 0 < downloaded then .inf else .ninf)) := by
  refine ⟨fun h => by simp [overlayPercent, h], fun h => ⟨?_, fun s => ?_⟩,
    fun ht hd s => by simp [settingsProgress, jsRoundPercent, ht, hd],
    fun ht hd s => by simp [settingsProgress, jsRoundPercent, ht, hd]⟩
  · simp [overlayPercent, jsRoundPercent, h]
  · simp [settingsProgress, jsRoundPercent, h]

/-- Witness for C9's amended theorem at the concrete inputs `250/500`, `0/0`
and `5/0`. -/
theorem C9_percent_witness :
    overlayPercent 0 0 = JSNum.fin 0 ∧
    overlayPercent 250 500 = JSNum.fin (round ((250 : ℚ) / 500 * 100)) ∧
    settingsProgress (some ("small", 250, 500)) "small" =
      JSNum.fin (round ((250 : ℚ) / 500 * 100)) ∧
    settingsProgress (some ("small", 0, 0)) "small" = JSNum.nan ∧
    settingsProgress (some ("small", 5, 0)) "small" =
      (if (0 : ℚ) < 5 then JSNum.inf else JSNum.ninf) :=
  ⟨(C9_percent 0 0).1 rfl,
   ((C9_percent 250 500).2.1 (by norm_num)).1,
   ((C9_percent 250 500).2.1 (by norm_num)).2 "small",
   (C9_percent 0 0).2.2.1 rfl rfl "small",
   (C9_percent 5 0).2.2.2 rfl (by norm_num) "small"⟩
